import Mathlib

/-!
Shallow embedding of `x/virtualgroup/keeper/msg_server.go` (greenfield).

Modelling conventions:
* addresses are `Nat` (the hex-parsing plumbing `sdk.MustAccAddressFromHex`
  is assumed to succeed on well-formed messages and is not modelled);
* `math.Int` amounts are Lean `Int`;
* keeper/store lookups and external collaborators (sp registry, bank,
  payment distribution, upgrade gates) are fields of per-handler
  environment records;
* a Go `panic` is the distinct outcome `Outcome.fatal`;
* bank transfers and emitted events performed by a successful handler are
  returned in its result record; an error return performs no transfer and
  emits no event, exactly as in the source where the error return happens
  before the corresponding call.
-/

namespace VG

/-- Storage-provider status (`sptypes.Status`). -/
inductive SpStatus where
  | inService
  | inMaintenance
  | gracefulExiting
  | forcedExiting
  | exited
deriving DecidableEq, Repr

/-- The fields of `sptypes.StorageProvider` used by this module. -/
structure StorageProvider where
  id : Nat
  status : SpStatus
  operatorAddress : Nat
  fundingAddress : Nat
  approvalAddress : Nat
  totalDeposit : Int
deriving DecidableEq, Repr

/-- `types.GlobalVirtualGroup` (the fields used by the handlers). -/
structure GlobalVirtualGroup where
  id : Nat
  familyId : Nat
  primarySpId : Nat
  secondarySpIds : List Nat
  storedSize : Nat
  totalDeposit : Int
deriving DecidableEq, Repr

/-- `types.GlobalVirtualGroupFamily` (the fields used by the handlers). -/
structure GVGFamily where
  id : Nat
  primarySpId : Nat
  globalVirtualGroupIds : List Nat
deriving DecidableEq, Repr

/-- `types.GVGStatisticsWithinSP`. -/
structure GVGStatisticsWithinSP where
  storageProviderId : Nat
  primaryCount : Nat
  secondaryCount : Nat
  breakRedundancyReqmtGvgCount : Nat
deriving DecidableEq, Repr

/-- The error values returned by the handlers, one constructor per
distinct error object in the source. -/
inductive VgErr where
  | invalidSigner
  | invalidParameter
  | invalidSecondarySPCount
  | duplicateSecondarySP
  | storageProviderNotFound
  | storageProviderNotInService
  | gvgNotExist
  | gvgFamilyNotExist
  | limitationExceed
  | duplicateGVG
  | invalidDenom
  | withdrawFailed
  | withdrawAmountTooLarge
  | settleFailed
  | spCanNotExit
  | storageProviderExitFailed
  | bankSendFailed
  | notExitable
  | spExitCallFailed
  | setParamsFailed
  | familyPrimaryMismatch
deriving DecidableEq, Repr

/-- Handler outcome: normal return, error return, or Go `panic`. -/
inductive Outcome (α : Type) where
  | ok : α → Outcome α
  | err : VgErr → Outcome α
  | fatal : Outcome α
deriving DecidableEq, Repr

/-- Accounts involved in bank transfers made by this module. -/
inductive Account where
  | user (addr : Nat)
  | modVirtualGroup
  | modSp
  | govPayment
deriving DecidableEq, Repr

/-- A bank transfer performed by a handler. -/
structure Transfer where
  src : Account
  dst : Account
  denom : String
  amount : Int
deriving DecidableEq, Repr

/-- The typed events emitted by the handlers (the fields the claims need). -/
inductive VgEvent where
  | createGVG (id familyId primarySpId : Nat) (secondarySpIds : List Nat)
      (totalDeposit : Int)
  | createFamily (id primarySpId : Nat)
  | updateGVG (id : Nat) (totalDeposit : Int)
  | spExit (spId : Nat)
  | spForcedExit (spId : Nat)
  | completeSpExit (spId : Nat) (totalDeposit : Int) (forced : Bool)
  | completeSpExitLegacy (spId : Nat) (totalDeposit : Int)
  | paramsUpdated (depositDenom : String)
deriving DecidableEq, Repr

/-- The sp-registry lookups used by the handlers
(`k.spKeeper.GetStorageProviderByOperatorAddr` /
`...ByFundingAddr` / `GetStorageProvider` / `GetAllStorageProviders`). -/
structure SpRegistry where
  byOperator : Nat → Option StorageProvider
  byFunding : Nat → Option StorageProvider
  byId : Nat → Option StorageProvider
  allSPs : List StorageProvider

/-- `sp.IsInService()`. -/
def StorageProvider.isInService (sp : StorageProvider) : Bool :=
  sp.status = SpStatus.inService

/-- `sp.IsInMaintenance()`. -/
def StorageProvider.isInMaintenance (sp : StorageProvider) : Bool :=
  sp.status = SpStatus.inMaintenance

/-- Operator-then-funding address resolution, the pattern shared by
`Deposit`, `Withdraw` and pre-Pampas `Settle`. -/
def resolveByOperatorOrFunding (reg : SpRegistry) (addr : Nat) :
    Option StorageProvider :=
  match reg.byOperator addr with
  | some sp => some sp
  | none => reg.byFunding addr

/-- `types.NoSpecifiedFamilyId`. -/
def NoSpecifiedFamilyId : Nat := 0

/-! ## Deposit (msg_server.go lines 202-246) -/

structure DepositEnv where
  reg : SpRegistry
  getGVG : Nat → Option GlobalVirtualGroup
  depositDenom : String
  bankOk : Bool

structure MsgDeposit where
  storageProvider : Nat
  globalVirtualGroupId : Nat
  depositDenom : String
  depositAmount : Int
deriving DecidableEq, Repr

structure DepositOk where
  transfers : List Transfer
  events : List VgEvent
  storedGVG : GlobalVirtualGroup
deriving DecidableEq, Repr

/-- `Deposit` handler. Note: the source performs no check that the
resolved SP is the primary or a secondary of the target group. -/
def Deposit (env : DepositEnv) (req : MsgDeposit) : Outcome DepositOk :=
  match resolveByOperatorOrFunding env.reg req.storageProvider with
  | none => .err .storageProviderNotFound
  | some sp =>
    match env.getGVG req.globalVirtualGroupId with
    | none => .err .gvgNotExist
    | some gvg =>
      if env.depositDenom ≠ req.depositDenom then .err .invalidDenom
      else if !env.bankOk then .err .bankSendFailed
      else
        let gvg1 := { gvg with totalDeposit := gvg.totalDeposit + req.depositAmount }
        .ok { transfers := [⟨Account.user sp.fundingAddress, Account.modVirtualGroup,
                             env.depositDenom, req.depositAmount⟩],
              events := [VgEvent.updateGVG gvg1.id gvg1.totalDeposit],
              storedGVG := gvg1 }

/-! ## Withdraw (msg_server.go lines 248-306) -/

structure WithdrawEnv where
  reg : SpRegistry
  getGVG : Nat → Option GlobalVirtualGroup
  depositDenom : String
  availableStakingTokens : GlobalVirtualGroup → Int
  bankOk : Bool

structure MsgWithdraw where
  storageProvider : Nat
  globalVirtualGroupId : Nat
  withdrawDenom : String
  withdrawAmount : Int
deriving DecidableEq, Repr

structure WithdrawOk where
  withdrawTokens : Int
  transfers : List Transfer
  events : List VgEvent
  storedGVG : GlobalVirtualGroup
deriving DecidableEq, Repr

/-- `Withdraw` handler. Note: the source never calls `SetGVG`, so the
persisted group record (`storedGVG`) is exactly the loaded one; in
particular `TotalDeposit` is not reduced. A negative available-token
value panics (`Outcome.fatal`). -/
def Withdraw (env : WithdrawEnv) (req : MsgWithdraw) : Outcome WithdrawOk :=
  match resolveByOperatorOrFunding env.reg req.storageProvider with
  | none => .err .storageProviderNotFound
  | some sp =>
    match env.getGVG req.globalVirtualGroupId with
    | none => .err .gvgNotExist
    | some gvg =>
      if gvg.primarySpId ≠ sp.id then .err .withdrawFailed
      else if req.withdrawDenom ≠ env.depositDenom then .err .invalidDenom
      else
        let availableTokens := env.availableStakingTokens gvg
        if availableTokens < 0 then .fatal
        else
          match (if req.withdrawAmount = 0 then Outcome.ok availableTokens
                 else if availableTokens < req.withdrawAmount then
                   Outcome.err VgErr.withdrawAmountTooLarge
                 else Outcome.ok req.withdrawAmount) with
          | .err e => .err e
          | .fatal => .fatal
          | .ok withdrawTokens =>
            if !env.bankOk then .err .bankSendFailed
            else
              .ok { withdrawTokens := withdrawTokens,
                    transfers := [⟨Account.modVirtualGroup, Account.user sp.fundingAddress,
                                   env.depositDenom, withdrawTokens⟩],
                    events := [VgEvent.updateGVG gvg.id gvg.totalDeposit],
                    storedGVG := gvg }

/-! ## Basic facts about Deposit and Withdraw -/

/-- A successful `Withdraw` persists exactly the group record it loaded:
the source never calls `SetGVG` in `Withdraw`. -/
lemma withdraw_ok_stored (env : WithdrawEnv) (req : MsgWithdraw) (r : WithdrawOk)
    (h : Withdraw env req = .ok r) :
    env.getGVG req.globalVirtualGroupId = some r.storedGVG := by
  dsimp only [Withdraw] at h
  repeat' split at h
  all_goals first
    | (have h2 := Outcome.ok.inj h
       subst h2
       simp_all)
    | (subst h
       simp_all)
    | simp_all

/-- A successful `Deposit` persists the loaded group with its total
deposit increased by the deposited amount. -/
lemma deposit_ok_stored (env : DepositEnv) (req : MsgDeposit) (r : DepositOk)
    (h : Deposit env req = .ok r) :
    ∃ gvg, env.getGVG req.globalVirtualGroupId = some gvg ∧
      r.storedGVG = { gvg with totalDeposit := gvg.totalDeposit + req.depositAmount } := by
  dsimp only [Deposit] at h
  repeat' split at h
  all_goals first
    | (have h2 := Outcome.ok.inj h
       subst h2
       simp_all)
    | (subst h
       simp_all)
    | simp_all

/-! ## Claim C1 -/

def spC1 : StorageProvider := ⟨1, .inService, 20, 10, 30, 500⟩

def gvgC1 : GlobalVirtualGroup := ⟨1, 5, 1, [2, 3], 0, 100⟩

def envC1 : WithdrawEnv :=
  { reg := { byOperator := fun a => if a = 20 then some spC1 else none,
             byFunding := fun _ => none,
             byId := fun _ => none,
             allSPs := [spC1] },
    getGVG := fun g => if g = 1 then some gvgC1 else none,
    depositDenom := "BNB",
    availableStakingTokens := fun _ => 40,
    bankOk := true }

def reqC1 : MsgWithdraw := ⟨20, 1, "BNB", 30⟩

def resC1 : WithdrawOk :=
  { withdrawTokens := 30,
    transfers := [⟨Account.modVirtualGroup, Account.user 10, "BNB", 30⟩],
    events := [VgEvent.updateGVG 1 100],
    storedGVG := gvgC1 }

/-- Claim C1 counterexample: a successful `Withdraw` of 30 tokens from a
group with recorded total deposit 100 leaves the persisted record at 100:
the recorded total deposit is not reduced by the withdrawn amount. -/
theorem withdraw_total_deposit_counterexample :
    Withdraw envC1 reqC1 = .ok resC1 ∧
    resC1.withdrawTokens = 30 ∧
    gvgC1.totalDeposit = 100 ∧
    resC1.storedGVG.totalDeposit = 100 ∧
    resC1.storedGVG.totalDeposit ≠ gvgC1.totalDeposit - resC1.withdrawTokens := by
  decide

/-- Claim C1 (amended): a successful `Withdraw` never changes the group's
recorded total deposit (the stored record equals the loaded one), and a
`Deposit` followed by a successful `Withdraw` (of any requested amount,
zero included) leaves the recorded total deposit increased by exactly the
deposited amount. -/
theorem withdraw_does_not_reduce_total_deposit :
    (∀ (env : WithdrawEnv) (req : MsgWithdraw) (r : WithdrawOk),
      Withdraw env req = .ok r →
        env.getGVG req.globalVirtualGroupId = some r.storedGVG) ∧
    (∀ (denv : DepositEnv) (wenv : WithdrawEnv) (dreq : MsgDeposit)
       (wreq : MsgWithdraw) (gvg : GlobalVirtualGroup) (d : DepositOk) (w : WithdrawOk),
      denv.getGVG dreq.globalVirtualGroupId = some gvg →
      Deposit denv dreq = .ok d →
      wenv.getGVG wreq.globalVirtualGroupId = some d.storedGVG →
      Withdraw wenv wreq = .ok w →
      w.storedGVG.totalDeposit = gvg.totalDeposit + dreq.depositAmount) := by
  constructor
  · exact withdraw_ok_stored
  · intro denv wenv dreq wreq gvg d w hg hd hw hok
    obtain ⟨gvg0, hg0, hst⟩ := deposit_ok_stored denv dreq d hd
    have hstored := withdraw_ok_stored wenv wreq w hok
    rw [hw] at hstored
    have : gvg0 = gvg := by rw [hg0] at hg; exact Option.some.inj hg
    subst this
    have : d.storedGVG = w.storedGVG := Option.some.inj hstored
    rw [← this, hst]

/-- Claim C1 amended-theorem witness at a concrete deposit/withdraw pair. -/
theorem withdraw_total_deposit_witness :
    resC1.storedGVG.totalDeposit = gvgC1.totalDeposit ∧ resC1.withdrawTokens ≠ 0 := by
  have h := (withdraw_does_not_reduce_total_deposit).1 envC1 reqC1 resC1 (by decide)
  refine ⟨?_, by decide⟩
  have : some gvgC1 = some resC1.storedGVG := h
  rw [← Option.some.inj this]

/-! ## Claim C4 -/

def spC4 : StorageProvider := ⟨99, .inService, 21, 11, 31, 0⟩

def gvgC4 : GlobalVirtualGroup := ⟨1, 5, 1, [2, 3], 0, 100⟩

def envC4 : DepositEnv :=
  { reg := { byOperator := fun a => if a = 21 then some spC4 else none,
             byFunding := fun _ => none,
             byId := fun _ => none,
             allSPs := [spC4] },
    getGVG := fun g => if g = 1 then some gvgC4 else none,
    depositDenom := "BNB",
    bankOk := true }

def reqC4 : MsgDeposit := ⟨21, 1, "BNB", 7⟩

/-- Claim C4 counterexample: SP 99 is neither the primary (1) nor a
secondary ([2,3]) of the target group, yet its `Deposit` succeeds: the
handler performs no group-membership check on the caller. -/
theorem deposit_membership_counterexample :
    Deposit envC4 reqC4 =
      .ok { transfers := [⟨Account.user 11, Account.modVirtualGroup, "BNB", 7⟩],
            events := [VgEvent.updateGVG 1 107],
            storedGVG := { gvgC4 with totalDeposit := 107 } } ∧
    spC4.id ≠ gvgC4.primarySpId ∧
    spC4.id ∉ gvgC4.secondarySpIds := by
  decide

/-- Claim C4 (amended): `Deposit` succeeds for any address that resolves
(as operator or funding address) to some storage provider, provided the
group exists, the denomination matches and the bank transfer succeeds —
regardless of whether that SP is the primary or a secondary of the group;
it moves the amount from the caller's funding account to the module pool
and increases the group's total deposit. -/
theorem deposit_no_membership_check :
    ∀ (env : DepositEnv) (req : MsgDeposit) (sp : StorageProvider)
      (gvg : GlobalVirtualGroup),
      resolveByOperatorOrFunding env.reg req.storageProvider = some sp →
      env.getGVG req.globalVirtualGroupId = some gvg →
      env.depositDenom = req.depositDenom →
      env.bankOk = true →
      Deposit env req =
        .ok { transfers := [⟨Account.user sp.fundingAddress, Account.modVirtualGroup,
                             env.depositDenom, req.depositAmount⟩],
              events := [VgEvent.updateGVG gvg.id (gvg.totalDeposit + req.depositAmount)],
              storedGVG := { gvg with totalDeposit := gvg.totalDeposit + req.depositAmount } } := by
  intro env req sp gvg hsp hgvg hdenom hbank
  unfold Deposit
  rw [hsp, hgvg]
  simp [hdenom, hbank]

/-- Claim C4 amended-theorem witness: a non-member SP's deposit goes
through at a concrete input. -/
theorem deposit_no_membership_witness :
    Deposit envC4 reqC4 =
      .ok { transfers := [⟨Account.user 11, Account.modVirtualGroup, "BNB", 7⟩],
            events := [VgEvent.updateGVG 1 107],
            storedGVG := { gvgC4 with totalDeposit := 107 } } := by
  have h := deposit_no_membership_check envC4 reqC4 spC4 gvgC4
    (by decide) (by decide) (by decide) (by decide)
  simpa [gvgC4] using h

/-! ## Claim C5 -/

/-- Claim C5: once `Withdraw` has resolved the caller to the group's
primary SP and the denomination matches: a negative available-token value
panics (is fatal, not a returned error); a zero requested amount
withdraws the entire available amount; a nonzero requested amount larger
than the available amount returns `WithdrawAmountTooLarge` (an error
return, before any bank transfer, so no tokens move). -/
theorem withdraw_available_semantics :
    ∀ (env : WithdrawEnv) (req : MsgWithdraw) (sp : StorageProvider)
      (gvg : GlobalVirtualGroup),
      resolveByOperatorOrFunding env.reg req.storageProvider = some sp →
      env.getGVG req.globalVirtualGroupId = some gvg →
      gvg.primarySpId = sp.id →
      req.withdrawDenom = env.depositDenom →
      ((env.availableStakingTokens gvg < 0 → Withdraw env req = .fatal) ∧
       (0 ≤ env.availableStakingTokens gvg → req.withdrawAmount = 0 →
         env.bankOk = true →
         Withdraw env req =
           .ok { withdrawTokens := env.availableStakingTokens gvg,
                 transfers := [⟨Account.modVirtualGroup, Account.user sp.fundingAddress,
                                env.depositDenom, env.availableStakingTokens gvg⟩],
                 events := [VgEvent.updateGVG gvg.id gvg.totalDeposit],
                 storedGVG := gvg }) ∧
       (req.withdrawAmount ≠ 0 → 0 ≤ env.availableStakingTokens gvg →
         env.availableStakingTokens gvg < req.withdrawAmount →
         Withdraw env req = .err .withdrawAmountTooLarge)) := by
  intro env req sp gvg hsp hgvg hprim hdenom
  refine ⟨?_, ?_, ?_⟩
  · intro hneg
    dsimp only [Withdraw]
    rw [hsp, hgvg]
    simp [hprim, hdenom, hneg]
  · intro hpos hzero hbank
    dsimp only [Withdraw]
    rw [hsp, hgvg]
    simp [hprim, hdenom, hzero, hbank, not_lt.mpr hpos]
  · intro hnz hpos hlt
    dsimp only [Withdraw]
    rw [hsp, hgvg]
    simp [hprim, hdenom, hnz, hlt, not_lt.mpr hpos]

def spC5 : StorageProvider := ⟨4, .inService, 40, 41, 42, 0⟩

def gvgC5 : GlobalVirtualGroup := ⟨9, 5, 4, [2, 3], 0, 100⟩

def envC5neg : WithdrawEnv :=
  { reg := { byOperator := fun a => if a = 40 then some spC5 else none,
             byFunding := fun _ => none,
             byId := fun _ => none,
             allSPs := [spC5] },
    getGVG := fun g => if g = 9 then some gvgC5 else none,
    depositDenom := "BNB",
    availableStakingTokens := fun _ => -1,
    bankOk := true }

def envC5pos : WithdrawEnv := { envC5neg with availableStakingTokens := fun _ => 40 }

/-- Claim C5 witness: at concrete inputs, a negative available balance
panics, a zero request withdraws the whole available amount, and an
oversized request returns `WithdrawAmountTooLarge`. -/
theorem withdraw_available_semantics_witness :
    Withdraw envC5neg ⟨40, 9, "BNB", 0⟩ = .fatal ∧
    Withdraw envC5pos ⟨40, 9, "BNB", 0⟩ =
      .ok { withdrawTokens := 40,
            transfers := [⟨Account.modVirtualGroup, Account.user 41, "BNB", 40⟩],
            events := [VgEvent.updateGVG 9 100],
            storedGVG := gvgC5 } ∧
    Withdraw envC5pos ⟨40, 9, "BNB", 41⟩ = .err .withdrawAmountTooLarge := by
  refine ⟨?_, ?_, ?_⟩
  · exact (withdraw_available_semantics envC5neg ⟨40, 9, "BNB", 0⟩ spC5 gvgC5
      (by decide) (by decide) (by decide) (by decide)).1 (by decide)
  · exact (withdraw_available_semantics envC5pos ⟨40, 9, "BNB", 0⟩ spC5 gvgC5
      (by decide) (by decide) (by decide) (by decide)).2.1 (by decide) (by decide) (by decide)
  · exact (withdraw_available_semantics envC5pos ⟨40, 9, "BNB", 41⟩ spC5 gvgC5
      (by decide) (by decide) (by decide) (by decide)).2.2 (by decide) (by decide) (by decide)

/-! ## CreateGlobalVirtualGroup (msg_server.go lines 55-176) -/

structure CreateEnv where
  pampas : Bool
  manchurian : Bool
  expectSecondarySPNum : Nat
  reg : SpRegistry
  getStat : Nat → Option GVGStatisticsWithinSP
  getFamily : Nat → Option GVGFamily
  getGVG : Nat → Option GlobalVirtualGroup
  maxGVGNumPerFamily : Nat
  depositDenom : String
  bankOk : Bool
  nextGVGID : Nat
  nextFamilyID : Nat

structure MsgCreateGVG where
  storageProvider : Nat
  familyId : Nat
  secondarySpIds : List Nat
  depositAmount : Int
deriving DecidableEq, Repr

structure CreateOk where
  gvg : GlobalVirtualGroup
  family : GVGFamily
  stats : List GVGStatisticsWithinSP
  transfers : List Transfer
  events : List VgEvent
deriving DecidableEq, Repr

/-- Modelled from the spec: `GetOrCreateGVGStatisticsWithinSP` lives in
the keeper (not under `src/`); per the spec the per-SP statistics record
is created with zero counters on first reference to an SP. -/
def GetOrCreateGVGStatisticsWithinSP (getStat : Nat → Option GVGStatisticsWithinSP)
    (spId : Nat) : GVGStatisticsWithinSP :=
  (getStat spId).getD ⟨spId, 0, 0, 0⟩

/-- Modelled from the spec: `GetOrCreateEmptyGVGFamily` lives in the
keeper (not under `src/`). Per the spec (§4.1): the sentinel unspecified
family id allocates a fresh empty family owned by the primary SP;
otherwise the existing family is loaded, `FamilyNotFound` if absent, and
its primary SP must equal the given primary SP. (The per-family cap
check is not here: in the source it is visible in
`CreateGlobalVirtualGroup` itself, lines 126-129, and is embedded
there.) -/
def GetOrCreateEmptyGVGFamily (env : CreateEnv) (familyId primarySpId : Nat) :
    Outcome GVGFamily :=
  if familyId = NoSpecifiedFamilyId then
    .ok ⟨env.nextFamilyID, primarySpId, []⟩
  else
    match env.getFamily familyId with
    | none => .err .gvgFamilyNotExist
    | some fam =>
      if fam.primarySpId ≠ primarySpId then .err .familyPrimaryMismatch
      else .ok fam

/-- The loop over `req.SecondarySpIds` (lines 89-102): each secondary SP
must exist and be in service or in maintenance; returns the resolved SP
records in order. -/
def resolveSecondaries (reg : SpRegistry) : List Nat → Outcome (List StorageProvider)
  | [] => .ok []
  | id :: rest =>
    match reg.byId id with
    | none => .err .storageProviderNotFound
    | some ssp =>
      if ¬(ssp.isInService || ssp.isInMaintenance) then
        .err .storageProviderNotInService
      else
        match resolveSecondaries reg rest with
        | .ok ssps => .ok (ssp :: ssps)
        | .err e => .err e
        | .fatal => .fatal

/-- Result of the inner scan of one existing group's secondary list
(lines 115-122). -/
inductive ScanResult where
  | noDup
  | dup
  | indexPanic
deriving DecidableEq, Repr

/-- The inner loop of the Manchurian duplicate-GVG check, scanning one
existing group's secondary ids `gvgSecs` with index `i` against the
requested ids `reqIds` (lines 115-122 of the source): a mismatch breaks
out; reaching index `len(reqIds)-1` with all positions equal reports a
duplicate. Indexing `reqIds[i]` out of range is a Go slice panic
(`indexPanic`), reachable only when `reqIds` is empty. -/
def scanDup (reqIds : List Nat) : List Nat → Nat → ScanResult
  | [], _ => .noDup
  | g :: gs, i =>
    match reqIds.get? i with
    | none => .indexPanic
    | some r =>
      if g ≠ r then .noDup
      else if i = reqIds.length - 1 then .dup
      else scanDup reqIds gs (i + 1)

/-- The outer loop of the Manchurian duplicate-GVG check over the
family's group ids (lines 110-123). -/
def dupGVGCheck (getGVG : Nat → Option GlobalVirtualGroup) (reqIds : List Nat) :
    List Nat → Outcome Unit
  | [] => .ok ()
  | gid :: rest =>
    match getGVG gid with
    | none => .err .gvgNotExist
    | some gvg =>
      match scanDup reqIds gvg.secondarySpIds 0 with
      | .indexPanic => .fatal
      | .dup => .err .duplicateGVG
      | .noDup => dupGVGCheck getGVG reqIds rest

/-- Spec-side comparator for the amended C3 claim: whether the first
list is a (contiguous, initial) prefix of the second. -/
def seqPrefixOf : List Nat → List Nat → Bool
  | [], _ => true
  | _ :: _, [] => false
  | a :: as, b :: bs => a == b && seqPrefixOf as bs

/-- Lines 109-176 of the source: everything from the Manchurian
duplicate-topology check onwards, given the already-resolved primary SP,
secondary SPs and family. -/
def createPhase2 (env : CreateEnv) (req : MsgCreateGVG) (sp : StorageProvider)
    (ssps : List StorageProvider) (gvgFamily : GVGFamily) : Outcome CreateOk :=
  let secondarySpIds := ssps.map StorageProvider.id
  let manchurianGate : Outcome Unit :=
    if env.manchurian then
      dupGVGCheck env.getGVG secondarySpIds gvgFamily.globalVirtualGroupIds
    else .ok ()
  match manchurianGate with
  | .err e => .err e
  | .fatal => .fatal
  | .ok _ =>
    if env.maxGVGNumPerFamily < gvgFamily.globalVirtualGroupIds.length then
      .err .limitationExceed
    else if !env.bankOk then .err .bankSendFailed
    else
      let gvgID := env.nextGVGID
      let gvg : GlobalVirtualGroup :=
        { id := gvgID, familyId := gvgFamily.id, primarySpId := sp.id,
          secondarySpIds := secondarySpIds, storedSize := 0,
          totalDeposit := req.depositAmount }
      let fam1 : GVGFamily :=
        { gvgFamily with
          globalVirtualGroupIds := gvgFamily.globalVirtualGroupIds ++ [gvgID] }
      let statPrimary :=
        let s := GetOrCreateGVGStatisticsWithinSP env.getStat sp.id
        { s with primaryCount := s.primaryCount + 1 }
      let statSecondaries := ssps.map fun ssp =>
        let s := GetOrCreateGVGStatisticsWithinSP env.getStat ssp.id
        { s with secondaryCount := s.secondaryCount + 1 }
      .ok { gvg := gvg, family := fam1,
            stats := statPrimary :: statSecondaries,
            transfers := [⟨Account.user sp.fundingAddress, Account.modVirtualGroup,
                           env.depositDenom, req.depositAmount⟩],
            events :=
              VgEvent.createGVG gvg.id gvg.familyId gvg.primarySpId
                  gvg.secondarySpIds gvg.totalDeposit ::
                (if req.familyId = NoSpecifiedFamilyId then
                  [VgEvent.createFamily fam1.id fam1.primarySpId]
                else []) }

/-- Lines 57-69 of the source: post-Pampas, the requested secondary
count must equal the expected count and the requested ids must be
pairwise distinct. -/
def pampasGate (env : CreateEnv) (req : MsgCreateGVG) : Outcome Unit :=
  if env.pampas then
    if req.secondarySpIds.length ≠ env.expectSecondarySPNum then
      .err .invalidSecondarySPCount
    else if ¬req.secondarySpIds.Nodup then .err .duplicateSecondarySP
    else .ok ()
  else .ok ()

/-- `CreateGlobalVirtualGroup` handler (lines 55-176). -/
def CreateGlobalVirtualGroup (env : CreateEnv) (req : MsgCreateGVG) :
    Outcome CreateOk :=
  match pampasGate env req with
  | .err e => .err e
  | .fatal => .fatal
  | .ok _ =>
    match env.reg.byOperator req.storageProvider with
    | none => .err .storageProviderNotFound
    | some sp =>
      if ¬(sp.isInService || sp.isInMaintenance) then
        .err .storageProviderNotInService
      else
        match resolveSecondaries env.reg req.secondarySpIds with
        | .err e => .err e
        | .fatal => .fatal
        | .ok ssps =>
          match GetOrCreateEmptyGVGFamily env req.familyId sp.id with
          | .err e => .err e
          | .fatal => .fatal
          | .ok gvgFamily => createPhase2 env req sp ssps gvgFamily

/-! ## The duplicate-GVG scan is a prefix check -/

/-- The inner Manchurian scan at index `i < reqIds.length` reports a
duplicate exactly when the remaining requested ids are an initial prefix
of the scanned secondary list (and it never panics from such an index). -/
lemma scanDup_eq (reqIds : List Nat) :
    ∀ (gs : List Nat) (i : Nat), i < reqIds.length →
      scanDup reqIds gs i =
        (if seqPrefixOf (reqIds.drop i) gs then ScanResult.dup else ScanResult.noDup)
  | [], i, hi => by
    rw [List.drop_eq_getElem_cons hi]
    simp [scanDup, seqPrefixOf]
  | g :: gs, i, hi => by
    have hget2 : reqIds[i]? = some reqIds[i] := List.getElem?_eq_getElem hi
    rw [List.drop_eq_getElem_cons hi]
    by_cases hg : g = reqIds[i]
    · subst hg
      by_cases hlast : i = reqIds.length - 1
      · subst hlast
        have hnil : reqIds.drop (reqIds.length - 1 + 1) = [] := by
          apply List.drop_eq_nil_of_le
          omega
        simp [scanDup, List.get?_eq_getElem?, hget2, seqPrefixOf, hnil]
      · have hi1 : i + 1 < reqIds.length := by omega
        have ih := scanDup_eq reqIds gs (i + 1) hi1
        simp [scanDup, List.get?_eq_getElem?, hget2, hlast, seqPrefixOf, ih]
    · have hg3 : ¬(reqIds[i] = g) := fun h2 => hg h2.symm
      simp [scanDup, List.get?_eq_getElem?, hget2, hg, seqPrefixOf, hg3]

/-- The outer Manchurian loop, when every group id in the family
resolves and the requested id list is nonempty, reports `ErrDuplicateGVG`
exactly when some group in the family has the requested sequence as an
initial prefix of its secondary-SP sequence. -/
lemma dupGVGCheck_iff (getGVG : Nat → Option GlobalVirtualGroup) (reqIds : List Nat)
    (hne : reqIds ≠ []) :
    ∀ gids : List Nat, (∀ gid ∈ gids, (getGVG gid).isSome = true) →
      (dupGVGCheck getGVG reqIds gids = .err .duplicateGVG ↔
        ∃ gid ∈ gids, ∃ g, getGVG gid = some g ∧
          seqPrefixOf reqIds g.secondarySpIds = true)
  | [], _ => by simp [dupGVGCheck]
  | gid :: rest, hall => by
    obtain ⟨g, hg⟩ := Option.isSome_iff_exists.mp (hall gid (List.mem_cons_self gid rest))
    have h0 : 0 < reqIds.length := List.length_pos.mpr hne
    have hscan := scanDup_eq reqIds g.secondarySpIds 0 h0
    rw [List.drop_zero] at hscan
    have ih := dupGVGCheck_iff getGVG reqIds hne rest
      (fun x hx => hall x (List.mem_cons_of_mem _ hx))
    by_cases hp : seqPrefixOf reqIds g.secondarySpIds = true
    · have hscan2 : scanDup reqIds g.secondarySpIds 0 = ScanResult.dup := by
        rw [hscan, if_pos hp]
      constructor
      · intro _
        exact ⟨gid, List.mem_cons_self gid rest, g, hg, hp⟩
      · intro _
        simp [dupGVGCheck, hg, hscan2]
    · have hscan2 : scanDup reqIds g.secondarySpIds 0 = ScanResult.noDup := by
        rw [hscan, if_neg hp]
      have hred : dupGVGCheck getGVG reqIds (gid :: rest) = dupGVGCheck getGVG reqIds rest := by
        simp [dupGVGCheck, hg, hscan2]
      rw [hred, ih]
      constructor
      · intro ⟨x, hx, gx, hgx, hpx⟩
        exact ⟨x, List.mem_cons_of_mem _ hx, gx, hgx, hpx⟩
      · intro ⟨x, hx, gx, hgx, hpx⟩
        rcases List.mem_cons.mp hx with hx1 | hx2
        · subst hx1
          rw [hg] at hgx
          cases Option.some.inj hgx
          exact absurd hpx hp
        · exact ⟨x, hx2, gx, hgx, hpx⟩

/-- When every family group id resolves and the requested id list is
nonempty, the Manchurian loop either passes or reports the duplicate
error: it neither panics nor returns any other error. -/
lemma dupGVGCheck_cases (getGVG : Nat → Option GlobalVirtualGroup) (reqIds : List Nat)
    (hne : reqIds ≠ []) :
    ∀ gids : List Nat, (∀ gid ∈ gids, (getGVG gid).isSome = true) →
      dupGVGCheck getGVG reqIds gids = .ok () ∨
      dupGVGCheck getGVG reqIds gids = .err .duplicateGVG
  | [], _ => Or.inl rfl
  | gid :: rest, hall => by
    obtain ⟨g, hg⟩ := Option.isSome_iff_exists.mp (hall gid (List.mem_cons_self gid rest))
    have h0 : 0 < reqIds.length := List.length_pos.mpr hne
    have hscan := scanDup_eq reqIds g.secondarySpIds 0 h0
    rw [List.drop_zero] at hscan
    have ih := dupGVGCheck_cases getGVG reqIds hne rest
      (fun x hx => hall x (List.mem_cons_of_mem _ hx))
    by_cases hp : seqPrefixOf reqIds g.secondarySpIds = true
    · right
      have hscan2 : scanDup reqIds g.secondarySpIds 0 = ScanResult.dup := by
        rw [hscan, if_pos hp]
      simp [dupGVGCheck, hg, hscan2]
    · have hscan2 : scanDup reqIds g.secondarySpIds 0 = ScanResult.noDup := by
        rw [hscan, if_neg hp]
      have hred : dupGVGCheck getGVG reqIds (gid :: rest) = dupGVGCheck getGVG reqIds rest := by
        simp [dupGVGCheck, hg, hscan2]
      rw [hred]
      exact ih

/-! ## Claim C2 -/

/-- Phase 2 of group creation caps the family's resulting group count at
`MaxGlobalVirtualGroupNumPerFamily + 1`: the check compares the cap with
the count before the new group is appended. -/
lemma createPhase2_ok_len (env : CreateEnv) (req : MsgCreateGVG) (sp : StorageProvider)
    (ssps : List StorageProvider) (fam : GVGFamily) (r : CreateOk)
    (h : createPhase2 env req sp ssps fam = .ok r) :
    r.family.globalVirtualGroupIds.length ≤ env.maxGVGNumPerFamily + 1 := by
  dsimp only [createPhase2] at h
  repeat' split at h
  all_goals first
    | (subst h
       dsimp only
       simp only [List.length_append, List.length_cons, List.length_nil]
       omega)
    | (have h2 := Outcome.ok.inj h
       subst h2
       dsimp only
       simp only [List.length_append, List.length_cons, List.length_nil]
       omega)
    | simp_all

/-- Claim C2 (amended): `CreateGlobalVirtualGroup` returns
`LimitExceeded` only when the family's group count before the attach
already strictly exceeds the configured cap, so a successful creation
can leave a family with up to cap + 1 groups (never more): the resulting
count may exceed the cap by exactly one. -/
theorem create_gvg_family_cap :
    (∀ (env : CreateEnv) (req : MsgCreateGVG) (r : CreateOk),
      CreateGlobalVirtualGroup env req = .ok r →
        r.family.globalVirtualGroupIds.length ≤ env.maxGVGNumPerFamily + 1) ∧
    (∀ (env : CreateEnv) (req : MsgCreateGVG) (sp : StorageProvider)
       (ssps : List StorageProvider) (fam : GVGFamily),
      env.reg.byOperator req.storageProvider = some sp →
      (sp.isInService || sp.isInMaintenance) = true →
      resolveSecondaries env.reg req.secondarySpIds = .ok ssps →
      GetOrCreateEmptyGVGFamily env req.familyId sp.id = .ok fam →
      env.pampas = false →
      env.manchurian = false →
      env.maxGVGNumPerFamily < fam.globalVirtualGroupIds.length →
      CreateGlobalVirtualGroup env req = .err .limitationExceed) := by
  constructor
  · intro env req r h
    dsimp only [CreateGlobalVirtualGroup] at h
    repeat' split at h
    all_goals first
      | exact createPhase2_ok_len _ _ _ _ _ _ h
      | simp_all
  · intro env req sp ssps fam hsp hstat hsec hfam hpam hman hcap
    dsimp only [CreateGlobalVirtualGroup]
    simp [pampasGate, hpam, hsp, hstat, hsec, hfam, createPhase2, hman, hcap]

def spC2 : StorageProvider := ⟨1, .inService, 20, 10, 30, 0⟩

def famC2 : GVGFamily := ⟨5, 1, [101, 102]⟩

def envC2 : CreateEnv :=
  { pampas := false, manchurian := false, expectSecondarySPNum := 0,
    reg := { byOperator := fun a => if a = 20 then some spC2 else none,
             byFunding := fun _ => none,
             byId := fun _ => none,
             allSPs := [spC2] },
    getStat := fun _ => none,
    getFamily := fun f => if f = 5 then some famC2 else none,
    getGVG := fun _ => none,
    maxGVGNumPerFamily := 2,
    depositDenom := "BNB",
    bankOk := true,
    nextGVGID := 11,
    nextFamilyID := 77 }

def reqC2 : MsgCreateGVG := ⟨20, 5, [], 50⟩

def resC2 : CreateOk :=
  { gvg := ⟨11, 5, 1, [], 0, 50⟩,
    family := ⟨5, 1, [101, 102, 11]⟩,
    stats := [⟨1, 1, 0, 0⟩],
    transfers := [⟨Account.user 10, Account.modVirtualGroup, "BNB", 50⟩],
    events := [VgEvent.createGVG 11 5 1 [] 50] }

/-- Claim C2 counterexample: with the per-family cap configured at 2 and
a family already holding 2 groups, attaching a third group succeeds (no
`LimitExceeded`), making the family's resulting group count 3, which
exceeds the cap. -/
theorem create_gvg_family_cap_counterexample :
    CreateGlobalVirtualGroup envC2 reqC2 = .ok resC2 ∧
    envC2.maxGVGNumPerFamily = 2 ∧
    resC2.family.globalVirtualGroupIds.length = 3 := by
  decide

/-- Claim C2 amended-theorem witness: the invariant bound cap + 1 holds
at the concrete input, and a family already strictly over the cap is
rejected with `LimitExceeded`. -/
theorem create_gvg_family_cap_witness :
    resC2.family.globalVirtualGroupIds.length ≤ envC2.maxGVGNumPerFamily + 1 ∧
    CreateGlobalVirtualGroup { envC2 with maxGVGNumPerFamily := 1 } reqC2 =
      .err .limitationExceed := by
  constructor
  · exact (create_gvg_family_cap).1 envC2 reqC2 resC2 (by decide)
  · exact (create_gvg_family_cap).2 { envC2 with maxGVGNumPerFamily := 1 } reqC2
      spC2 [] famC2 (by decide) (by decide) (by decide) (by decide)
      (by decide) (by decide) (by decide)

/-! ## Claim C3 -/

/-- Claim C3 (amended): once the earlier checks pass and with the
Manchurian upgrade active, `CreateGlobalVirtualGroup` returns the
duplicate-GVG error if and only if some group of the target family has
the (nonempty) requested secondary-SP id sequence as an initial prefix
of its own secondary-SP sequence — prefix equality up to the requested
length, not full-sequence element-for-element identity. -/
theorem create_gvg_duplicate_initial_segment :
    ∀ (env : CreateEnv) (req : MsgCreateGVG) (sp : StorageProvider)
      (ssps : List StorageProvider) (fam : GVGFamily),
      env.manchurian = true →
      env.reg.byOperator req.storageProvider = some sp →
      (sp.isInService || sp.isInMaintenance) = true →
      resolveSecondaries env.reg req.secondarySpIds = .ok ssps →
      pampasGate env req = .ok () →
      GetOrCreateEmptyGVGFamily env req.familyId sp.id = .ok fam →
      (∀ gid ∈ fam.globalVirtualGroupIds, (env.getGVG gid).isSome = true) →
      ssps.map StorageProvider.id ≠ [] →
      (CreateGlobalVirtualGroup env req = .err .duplicateGVG ↔
        ∃ gid ∈ fam.globalVirtualGroupIds, ∃ g, env.getGVG gid = some g ∧
          seqPrefixOf (ssps.map StorageProvider.id) g.secondarySpIds = true) := by
  intro env req sp ssps fam hman hsp hstat hsec hgate hfam hall hne
  have hiff := dupGVGCheck_iff env.getGVG (ssps.map StorageProvider.id) hne
    fam.globalVirtualGroupIds hall
  have hred : CreateGlobalVirtualGroup env req = createPhase2 env req sp ssps fam := by
    dsimp only [CreateGlobalVirtualGroup]
    rw [hgate, hsp]
    simp [hstat, hsec, hfam]
  rw [hred]
  rcases dupGVGCheck_cases env.getGVG (ssps.map StorageProvider.id) hne
      fam.globalVirtualGroupIds hall with hok | hdup
  · constructor
    · intro h
      exfalso
      dsimp only [createPhase2] at h
      rw [hman] at h
      simp only [if_true] at h
      rw [hok] at h
      repeat' split at h
      all_goals simp_all
    · intro hex
      have := hiff.mpr hex
      rw [hok] at this
      exact absurd this (by simp)
  · constructor
    · intro _
      exact hiff.mp hdup
    · intro _
      dsimp only [createPhase2]
      rw [hman]
      simp only [if_true]
      rw [hdup]

def spC3 : StorageProvider := ⟨1, .inService, 20, 10, 30, 0⟩

def spC3b : StorageProvider := ⟨2, .inService, 22, 12, 32, 0⟩

def spC3c : StorageProvider := ⟨3, .inService, 23, 13, 33, 0⟩

def famC3 : GVGFamily := ⟨5, 1, [7]⟩

def gvgC3 : GlobalVirtualGroup := ⟨7, 5, 1, [2, 3, 4], 0, 0⟩

def envC3 : CreateEnv :=
  { pampas := true, manchurian := true, expectSecondarySPNum := 2,
    reg := { byOperator := fun a => if a = 20 then some spC3 else none,
             byFunding := fun _ => none,
             byId := fun i => if i = 2 then some spC3b else if i = 3 then some spC3c else none,
             allSPs := [spC3, spC3b, spC3c] },
    getStat := fun _ => none,
    getFamily := fun f => if f = 5 then some famC3 else none,
    getGVG := fun g => if g = 7 then some gvgC3 else none,
    maxGVGNumPerFamily := 10,
    depositDenom := "BNB",
    bankOk := true,
    nextGVGID := 11,
    nextFamilyID := 77 }

def reqC3 : MsgCreateGVG := ⟨20, 5, [2, 3], 50⟩

/-- Claim C3 counterexample: the family's only group has secondary
sequence [2, 3, 4]; the request asks for [2, 3], which is identical to
no group's sequence, yet creation fails with the duplicate-GVG error:
the check fires on prefix equality, not element-for-element identity. -/
theorem create_gvg_duplicate_counterexample :
    CreateGlobalVirtualGroup envC3 reqC3 = .err .duplicateGVG ∧
    famC3.globalVirtualGroupIds = [7] ∧
    envC3.getGVG 7 = some gvgC3 ∧
    gvgC3.secondarySpIds ≠ reqC3.secondarySpIds := by
  decide

/-- Claim C3 amended-theorem witness at the concrete family: the
error occurs and the prefix witness exists. -/
theorem create_gvg_duplicate_witness :
    CreateGlobalVirtualGroup envC3 reqC3 = .err .duplicateGVG := by
  refine (create_gvg_duplicate_initial_segment envC3 reqC3 spC3 [spC3b, spC3c] famC3
    (by decide) (by decide) (by decide) (by decide) (by decide) (by decide)
    (by decide) (by decide)).mpr ?_
  exact ⟨7, by decide, gvgC3, by decide, by decide⟩

/-! ## StorageProviderExit (lines 450-496) and
StorageProviderForcedExit (lines 622-657) -/

/-- Whether a status counts as exiting for the concurrency cap
(`STATUS_GRACEFUL_EXITING` or `STATUS_FORCED_EXITING`). -/
def isExiting : SpStatus → Bool
  | .gracefulExiting => true
  | .forcedExiting => true
  | _ => false

/-- The concurrency-cap loop shared by both exit handlers (lines
471-483 and 635-646): walk all SPs keeping a running count of exiting
ones and fail as soon as the running count reaches the cap. -/
def capCheckFails : List StorageProvider → Nat → Nat → Bool
  | [], _, _ => false
  | sp :: rest, count, maxNum =>
    if isExiting sp.status then
      if maxNum ≤ count + 1 then true
      else capCheckFails rest (count + 1) maxNum
    else capCheckFails rest count maxNum

/-- The number of SPs in either exiting status. -/
def countExiting : List StorageProvider → Nat
  | [] => 0
  | sp :: rest => (if isExiting sp.status then 1 else 0) + countExiting rest

/-- The running-count cap loop fails exactly when at least one SP is
exiting and the total number of exiting SPs reaches the cap (counting
from the given start value). -/
lemma capCheckFails_iff :
    ∀ (sps : List StorageProvider) (count maxNum : Nat),
      capCheckFails sps count maxNum = true ↔
        (1 ≤ countExiting sps ∧ maxNum ≤ count + countExiting sps)
  | [], count, maxNum => by simp [capCheckFails, countExiting]
  | sp :: rest, count, maxNum => by
    by_cases hex : isExiting sp.status = true
    · by_cases hcap : maxNum ≤ count + 1
      · simp only [capCheckFails, countExiting, hex, if_pos hcap, if_true]
        constructor
        · intro _
          exact ⟨by omega, by omega⟩
        · intro _
          trivial
      · have ih := capCheckFails_iff rest (count + 1) maxNum
        simp only [capCheckFails, countExiting, hex, if_neg hcap, if_true]
        rw [ih]
        constructor
        · intro ⟨h1, h2⟩
          exact ⟨by omega, by omega⟩
        · intro ⟨h1, h2⟩
          have : 1 ≤ countExiting rest := by
            by_contra hc
            have : countExiting rest = 0 := by omega
            omega
          exact ⟨this, by omega⟩
    · have ih := capCheckFails_iff rest count maxNum
      simp only [capCheckFails, countExiting, hex, if_false]
      rw [if_neg (by simp [hex]), ih]
      simp only [Bool.not_eq_true] at hex
      constructor
      · intro ⟨h1, h2⟩
        refine ⟨by simpa [hex] using h1, by simpa [hex] using h2⟩
      · intro ⟨h1, h2⟩
        simp [hex] at h1 h2
        exact ⟨h1, h2⟩

structure ExitEnv where
  hulunbeier : Bool
  reg : SpRegistry
  getStat : Nat → Option GVGStatisticsWithinSP
  maxSPExitingNum : Nat

structure ExitOk where
  sp : StorageProvider
  events : List VgEvent
deriving DecidableEq, Repr

/-- `StorageProviderExit` handler (lines 450-496). The redundancy-break
and concurrency-cap checks run only when the Hulunbeier upgrade is
active. -/
def StorageProviderExit (env : ExitEnv) (addr : Nat) : Outcome ExitOk :=
  match env.reg.byOperator addr with
  | none => .err .storageProviderNotFound
  | some sp =>
    if sp.status ≠ SpStatus.inService then .err .storageProviderExitFailed
    else
      let gate : Outcome Unit :=
        if env.hulunbeier then
          match env.getStat sp.id with
          | some stat =>
            if stat.breakRedundancyReqmtGvgCount ≠ 0 then .err .spCanNotExit
            else if capCheckFails env.reg.allSPs 0 env.maxSPExitingNum then
              .err .storageProviderExitFailed
            else .ok ()
          | none =>
            if capCheckFails env.reg.allSPs 0 env.maxSPExitingNum then
              .err .storageProviderExitFailed
            else .ok ()
        else .ok ()
      match gate with
      | .err e => .err e
      | .fatal => .fatal
      | .ok _ =>
        .ok { sp := { sp with status := SpStatus.gracefulExiting },
              events := [VgEvent.spExit sp.id] }

structure ForcedExitEnv where
  authority : String
  reg : SpRegistry
  maxSPExitingNum : Nat

/-- `StorageProviderForcedExit` handler (lines 622-657). The cap loop is
unconditional; there is no status check and no redundancy-break check. -/
def StorageProviderForcedExit (env : ForcedExitEnv) (msgAuthority : String)
    (addr : Nat) : Outcome ExitOk :=
  if env.authority ≠ msgAuthority then .err .invalidSigner
  else
    match env.reg.byOperator addr with
    | none => .err .storageProviderNotFound
    | some sp =>
      if capCheckFails env.reg.allSPs 0 env.maxSPExitingNum then
        .err .storageProviderExitFailed
      else
        .ok { sp := { sp with status := SpStatus.forcedExiting },
              events := [VgEvent.spForcedExit sp.id] }

/-! ## Claim C6 -/

def spC6 : StorageProvider := ⟨6, .inService, 50, 51, 52, 0⟩

def statC6 : GVGStatisticsWithinSP := ⟨6, 0, 0, 7⟩

def envC6 : ExitEnv :=
  { hulunbeier := false,
    reg := { byOperator := fun a => if a = 50 then some spC6 else none,
             byFunding := fun _ => none,
             byId := fun _ => none,
             allSPs := [spC6] },
    getStat := fun i => if i = 6 then some statC6 else none,
    maxSPExitingNum := 1 }

/-- Claim C6 counterexample: before the Hulunbeier upgrade the handler
performs neither the redundancy-break check nor the concurrency-cap
check, so an in-service SP with a nonzero break counter still exits
successfully. -/
theorem sp_exit_precondition_counterexample :
    StorageProviderExit envC6 50 =
      .ok { sp := { spC6 with status := SpStatus.gracefulExiting },
            events := [VgEvent.spExit 6] } ∧
    envC6.getStat 6 = some statC6 ∧
    statC6.breakRedundancyReqmtGvgCount ≠ 0 ∧
    envC6.hulunbeier = false := by
  decide

/-- Claim C6 (amended): a voluntary exit always fails when the SP is not
`IN_SERVICE`; with the Hulunbeier upgrade active it additionally fails
when the SP's recorded redundancy-break counter is nonzero, and when at
least one SP is exiting and the number of exiting SPs reaches the
configured cap; when the remaining preconditions hold (vacuously so
before the upgrade) the SP's status becomes `GRACEFUL_EXITING` and
exactly one exit event is emitted. Before the upgrade the break-counter
and cap checks are skipped entirely. -/
theorem sp_exit_preconditions :
    ∀ (env : ExitEnv) (addr : Nat) (sp : StorageProvider),
      env.reg.byOperator addr = some sp →
      ((sp.status ≠ SpStatus.inService →
          StorageProviderExit env addr = .err .storageProviderExitFailed) ∧
       (env.hulunbeier = true → sp.status = SpStatus.inService →
          ∀ stat, env.getStat sp.id = some stat →
            stat.breakRedundancyReqmtGvgCount ≠ 0 →
            StorageProviderExit env addr = .err .spCanNotExit) ∧
       (env.hulunbeier = true → sp.status = SpStatus.inService →
          (∀ stat, env.getStat sp.id = some stat →
            stat.breakRedundancyReqmtGvgCount = 0) →
          1 ≤ countExiting env.reg.allSPs →
          env.maxSPExitingNum ≤ countExiting env.reg.allSPs →
          StorageProviderExit env addr = .err .storageProviderExitFailed) ∧
       (sp.status = SpStatus.inService →
          (env.hulunbeier = true →
            (∀ stat, env.getStat sp.id = some stat →
              stat.breakRedundancyReqmtGvgCount = 0) ∧
            countExiting env.reg.allSPs < env.maxSPExitingNum) →
          StorageProviderExit env addr =
            .ok { sp := { sp with status := SpStatus.gracefulExiting },
                  events := [VgEvent.spExit sp.id] })) := by
  intro env addr sp hsp
  refine ⟨?_, ?_, ?_, ?_⟩
  · intro hst
    dsimp only [StorageProviderExit]
    rw [hsp]
    simp [hst]
  · intro hul hst stat hstat hbreak
    dsimp only [StorageProviderExit]
    rw [hsp]
    simp [hst, hul, hstat, hbreak]
  · intro hul hst hzero h1 hcap
    have hfail : capCheckFails env.reg.allSPs 0 env.maxSPExitingNum = true := by
      rw [capCheckFails_iff]
      exact ⟨h1, by omega⟩
    dsimp only [StorageProviderExit]
    rw [hsp]
    cases hstat : env.getStat sp.id with
    | none => simp [hst, hul, hstat, hfail]
    | some stat =>
      have := hzero stat hstat
      simp [hst, hul, hstat, this, hfail]
  · intro hst hrest
    dsimp only [StorageProviderExit]
    rw [hsp]
    cases hul : env.hulunbeier with
    | false => simp [hst, hul]
    | true =>
      obtain ⟨hzero, hlt⟩ := hrest hul
      have hnofail : capCheckFails env.reg.allSPs 0 env.maxSPExitingNum = false := by
        rw [Bool.eq_false_iff]
        intro hc
        rw [capCheckFails_iff] at hc
        omega
      cases hstat : env.getStat sp.id with
      | none => simp [hst, hul, hstat, hnofail]
      | some stat =>
        have := hzero stat hstat
        simp [hst, hul, hstat, this, hnofail]

def spC6w : StorageProvider := ⟨6, .gracefulExiting, 55, 56, 57, 0⟩

def envC6h : ExitEnv := { envC6 with hulunbeier := true }

def envC6cap : ExitEnv :=
  { hulunbeier := true,
    reg := { byOperator := fun a => if a = 50 then some spC6 else none,
             byFunding := fun _ => none,
             byId := fun _ => none,
             allSPs := [spC6, spC6w] },
    getStat := fun _ => none,
    maxSPExitingNum := 1 }

/-- Claim C6 amended-theorem witness: post-upgrade, the nonzero break
counter blocks the exit; with a zero-break SP and the cap already
reached, the exit is blocked; pre-upgrade the same SP exits. -/
theorem sp_exit_preconditions_witness :
    StorageProviderExit envC6h 50 = .err .spCanNotExit ∧
    StorageProviderExit envC6cap 50 = .err .storageProviderExitFailed ∧
    StorageProviderExit envC6 50 =
      .ok { sp := { spC6 with status := SpStatus.gracefulExiting },
            events := [VgEvent.spExit 6] } := by
  refine ⟨?_, ?_, ?_⟩
  · exact (sp_exit_preconditions envC6h 50 spC6 (by decide)).2.1 (by decide) (by decide)
      statC6 (by decide) (by decide)
  · exact (sp_exit_preconditions envC6cap 50 spC6 (by decide)).2.2.1 (by decide) (by decide)
      (by decide) (by decide) (by decide)
  · exact (sp_exit_preconditions envC6 50 spC6 (by decide)).2.2.2 (by decide)
      (fun h => absurd h (by decide))

/-! ## Claim C7 -/

/-- Claim C7: `StorageProviderForcedExit` is rejected for any caller
whose authority string differs from the configured governance authority;
for a resolved SP it succeeds whenever the number of exiting SPs is
below the cap — regardless of the SP's current status, and without
consulting any redundancy-break counter (the handler takes no statistics
input at all) — setting the status to `FORCED_EXITING`; and when it
fails despite correct authority and a resolved SP, the number of exiting
SPs has reached the cap. -/
theorem sp_forced_exit_semantics :
    ∀ (env : ForcedExitEnv) (msgAuthority : String) (addr : Nat),
      (env.authority ≠ msgAuthority →
        StorageProviderForcedExit env msgAuthority addr = .err .invalidSigner) ∧
      (∀ sp, env.authority = msgAuthority →
        env.reg.byOperator addr = some sp →
        countExiting env.reg.allSPs < env.maxSPExitingNum →
        StorageProviderForcedExit env msgAuthority addr =
          .ok { sp := { sp with status := SpStatus.forcedExiting },
                events := [VgEvent.spForcedExit sp.id] }) ∧
      (∀ sp e, env.authority = msgAuthority →
        env.reg.byOperator addr = some sp →
        StorageProviderForcedExit env msgAuthority addr = .err e →
        env.maxSPExitingNum ≤ countExiting env.reg.allSPs) := by
  intro env msgAuthority addr
  refine ⟨?_, ?_, ?_⟩
  · intro hne
    dsimp only [StorageProviderForcedExit]
    simp [hne]
  · intro sp hauth hsp hlt
    have hnofail : capCheckFails env.reg.allSPs 0 env.maxSPExitingNum = false := by
      rw [Bool.eq_false_iff]
      intro hc
      rw [capCheckFails_iff] at hc
      omega
    dsimp only [StorageProviderForcedExit]
    rw [hsp]
    simp [hauth, hnofail]
  · intro sp e hauth hsp herr
    dsimp only [StorageProviderForcedExit] at herr
    rw [hsp] at herr
    simp only [hauth, ne_eq, not_true_eq_false, if_false] at herr
    by_cases hc : capCheckFails env.reg.allSPs 0 env.maxSPExitingNum = true
    · rw [capCheckFails_iff] at hc
      omega
    · rw [Bool.not_eq_true] at hc
      rw [hc] at herr
      simp at herr

def spC7 : StorageProvider := ⟨7, .exited, 60, 61, 62, 0⟩

def envC7 : ForcedExitEnv :=
  { authority := "gov",
    reg := { byOperator := fun a => if a = 60 then some spC7 else none,
             byFunding := fun _ => none,
             byId := fun _ => none,
             allSPs := [spC7] },
    maxSPExitingNum := 2 }

/-- Claim C7 witness: a wrong authority is rejected, and with the right
authority an SP that is not even in service (status `EXITED`) is forced
into `FORCED_EXITING` while the cap is not met. -/
theorem sp_forced_exit_witness :
    StorageProviderForcedExit envC7 "someone" 60 = .err .invalidSigner ∧
    StorageProviderForcedExit envC7 "gov" 60 =
      .ok { sp := { spC7 with status := SpStatus.forcedExiting },
            events := [VgEvent.spForcedExit 7] } := by
  constructor
  · exact (sp_forced_exit_semantics envC7 "someone" 60).1 (by decide)
  · exact (sp_forced_exit_semantics envC7 "gov" 60).2.1 spC7 (by decide) (by decide)
      (by decide)

/-! ## CompleteStorageProviderExit (lines 498-560) -/

structure CompleteExitEnv where
  reg : SpRegistry
  exitable : Nat → Bool
  spDepositDenom : String
  bankOk : Bool
  spExitOk : Bool
  hulunbeier : Bool

structure CompleteExitOk where
  transfers : List Transfer
  events : List VgEvent
deriving DecidableEq, Repr

/-- `CompleteStorageProviderExit` handler (lines 498-560). `exitable`
stands for `k.StorageProviderExitable` and `spExitOk` for
`k.spKeeper.Exit`; both are external to this module. On the graceful
path the full `sp.TotalDeposit` goes from the SP module account to the
SP's funding address; on the forced path it goes to the payment-module
governance account instead. -/
def CompleteStorageProviderExit (env : CompleteExitEnv) (addr : Nat)
    (msgOperator : Nat) : Outcome CompleteExitOk :=
  match env.reg.byOperator addr with
  | none => .err .storageProviderNotFound
  | some sp =>
    if sp.status ≠ SpStatus.gracefulExiting ∧ sp.status ≠ SpStatus.forcedExiting then
      .err .storageProviderExitFailed
    else if !env.exitable sp.id then .err .notExitable
    else
      let forcedExit : Bool := !(sp.status = SpStatus.gracefulExiting)
      let dst : Account :=
        if sp.status = SpStatus.gracefulExiting then Account.user sp.fundingAddress
        else Account.govPayment
      if !env.bankOk then .err .bankSendFailed
      else if !env.spExitOk then .err .spExitCallFailed
      else
        .ok { transfers := [⟨Account.modSp, dst, env.spDepositDenom, sp.totalDeposit⟩],
              events :=
                if env.hulunbeier then
                  [VgEvent.completeSpExit sp.id sp.totalDeposit forcedExit]
                else
                  [VgEvent.completeSpExitLegacy sp.id sp.totalDeposit] }

/-! ## Claim C8 -/

/-- Claim C8: a completed exit of a `GRACEFUL_EXITING` SP transfers its
full `TotalDeposit` from the SP module account to the SP's own funding
address; a completed exit of a `FORCED_EXITING` SP transfers the full
`TotalDeposit` to the payment-module governance account instead; an SP
in any other status fails the operation. -/
theorem complete_sp_exit_deposit_routing :
    ∀ (env : CompleteExitEnv) (addr msgOperator : Nat) (sp : StorageProvider),
      env.reg.byOperator addr = some sp →
      ((sp.status = SpStatus.gracefulExiting →
          env.exitable sp.id = true → env.bankOk = true → env.spExitOk = true →
          ∃ r, CompleteStorageProviderExit env addr msgOperator = .ok r ∧
            r.transfers = [⟨Account.modSp, Account.user sp.fundingAddress,
                            env.spDepositDenom, sp.totalDeposit⟩]) ∧
       (sp.status = SpStatus.forcedExiting →
          env.exitable sp.id = true → env.bankOk = true → env.spExitOk = true →
          ∃ r, CompleteStorageProviderExit env addr msgOperator = .ok r ∧
            r.transfers = [⟨Account.modSp, Account.govPayment,
                            env.spDepositDenom, sp.totalDeposit⟩]) ∧
       (sp.status ≠ SpStatus.gracefulExiting → sp.status ≠ SpStatus.forcedExiting →
          CompleteStorageProviderExit env addr msgOperator =
            .err .storageProviderExitFailed)) := by
  intro env addr msgOperator sp hsp
  refine ⟨?_, ?_, ?_⟩
  · intro hst hex hbank hexit
    have hres : CompleteStorageProviderExit env addr msgOperator =
        .ok { transfers := [⟨Account.modSp, Account.user sp.fundingAddress,
                             env.spDepositDenom, sp.totalDeposit⟩],
              events :=
                if env.hulunbeier then
                  [VgEvent.completeSpExit sp.id sp.totalDeposit false]
                else [VgEvent.completeSpExitLegacy sp.id sp.totalDeposit] } := by
      dsimp only [CompleteStorageProviderExit]
      rw [hsp]
      simp [hst, hex, hbank, hexit]
    exact ⟨_, hres, rfl⟩
  · intro hst hex hbank hexit
    have hres : CompleteStorageProviderExit env addr msgOperator =
        .ok { transfers := [⟨Account.modSp, Account.govPayment,
                             env.spDepositDenom, sp.totalDeposit⟩],
              events :=
                if env.hulunbeier then
                  [VgEvent.completeSpExit sp.id sp.totalDeposit true]
                else [VgEvent.completeSpExitLegacy sp.id sp.totalDeposit] } := by
      dsimp only [CompleteStorageProviderExit]
      rw [hsp]
      simp [hst, hex, hbank, hexit]
    exact ⟨_, hres, rfl⟩
  · intro hst1 hst2
    dsimp only [CompleteStorageProviderExit]
    rw [hsp]
    simp [hst1, hst2]

def spC8g : StorageProvider := ⟨8, .gracefulExiting, 70, 71, 72, 900⟩

def spC8f : StorageProvider := ⟨9, .forcedExiting, 80, 81, 82, 700⟩

def spC8s : StorageProvider := ⟨10, .inService, 90, 91, 92, 100⟩

def envC8 : CompleteExitEnv :=
  { reg := { byOperator := fun a =>
               if a = 70 then some spC8g
               else if a = 80 then some spC8f
               else if a = 90 then some spC8s
               else none,
             byFunding := fun _ => none,
             byId := fun _ => none,
             allSPs := [spC8g, spC8f, spC8s] },
    exitable := fun _ => true,
    spDepositDenom := "BNB",
    bankOk := true,
    spExitOk := true,
    hulunbeier := true }

/-- Claim C8 witness: graceful exit refunds 900 to funding address 71,
forced exit forfeits 700 to the governance account, and an in-service SP
is rejected. -/
theorem complete_sp_exit_witness :
    (∃ r, CompleteStorageProviderExit envC8 70 70 = .ok r ∧
      r.transfers = [⟨Account.modSp, Account.user 71, "BNB", 900⟩]) ∧
    (∃ r, CompleteStorageProviderExit envC8 80 80 = .ok r ∧
      r.transfers = [⟨Account.modSp, Account.govPayment, "BNB", 700⟩]) ∧
    CompleteStorageProviderExit envC8 90 90 = .err .storageProviderExitFailed := by
  refine ⟨?_, ?_, ?_⟩
  · exact (complete_sp_exit_deposit_routing envC8 70 70 spC8g (by decide)).1
      (by decide) (by decide) (by decide) (by decide)
  · exact (complete_sp_exit_deposit_routing envC8 80 80 spC8f (by decide)).2.1
      (by decide) (by decide) (by decide) (by decide)
  · exact (complete_sp_exit_deposit_routing envC8 90 90 spC8s (by decide)).2.2
      (by decide) (by decide)

/-! ## Settle (lines 380-448) -/

structure SettleEnv where
  pampas : Bool
  reg : SpRegistry
  getFamily : Nat → Option GVGFamily
  getGVG : Nat → Option GlobalVirtualGroup
  settleFamilyOk : Bool
  settleGVGOk : Nat → Bool

/-- First-occurrence deduplication with an explicit seen accumulator.
The source deduplicates through a Go map and then iterates the map,
whose order is unspecified; the embedding fixes first-occurrence order,
which affects only which error is reported first, not any property
claimed here. -/
def dedupAux (seen : List Nat) : List Nat → List Nat
  | [] => []
  | x :: xs => if x ∈ seen then dedupAux seen xs else x :: dedupAux (x :: seen) xs

/-- Deduplication of the requested group ids (lines 416-419). -/
def dedupFirst (l : List Nat) : List Nat := dedupAux [] l

/-- The per-group settlement loop (lines 421-444): load each group, in
the pre-Pampas regime require the resolved caller to be one of its
secondaries (else `SettleFailed`), then settle it, any settlement
failure reported as `SettleFailed`; the first failure aborts the loop. -/
def settleGVGLoop (env : SettleEnv) (spId : Option Nat) : List Nat → Outcome Unit
  | [] => .ok ()
  | gid :: rest =>
    match env.getGVG gid with
    | none => .err .gvgNotExist
    | some gvg =>
      if !env.pampas then
        match spId with
        | none => .fatal
        | some sid =>
          if sid ∈ gvg.secondarySpIds then
            if env.settleGVGOk gid then settleGVGLoop env spId rest
            else .err .settleFailed
          else .err .settleFailed
      else
        if env.settleGVGOk gid then settleGVGLoop env spId rest
        else .err .settleFailed

/-- `Settle` handler (lines 380-448). `settleFamilyOk` stands for
`SettleAndDistributeGVGFamily` and `settleGVGOk` for
`SettleAndDistributeGVG`, both external distribution routines. -/
def Settle (env : SettleEnv) (addr : Nat) (familyId : Nat) (gvgIds : List Nat) :
    Outcome Unit :=
  match (if !env.pampas then
           match resolveByOperatorOrFunding env.reg addr with
           | none => Outcome.err VgErr.storageProviderNotFound
           | some sp => Outcome.ok (some sp)
         else Outcome.ok none) with
  | .err e => .err e
  | .fatal => .fatal
  | .ok spOpt =>
    if familyId ≠ NoSpecifiedFamilyId then
      match env.getFamily familyId with
      | none => .err .gvgFamilyNotExist
      | some fam =>
        match (if env.pampas then
                 match env.reg.byId fam.primarySpId with
                 | none => Outcome.err VgErr.storageProviderNotFound
                 | some sp2 => Outcome.ok (some sp2)
               else Outcome.ok spOpt) with
        | .err e => .err e
        | .fatal => .fatal
        | .ok _ => if env.settleFamilyOk then .ok () else .err .settleFailed
    else
      settleGVGLoop env (spOpt.map StorageProvider.id) (dedupFirst gvgIds)

/-- Membership in the deduplicated list. -/
lemma dedupAux_mem : ∀ (seen l : List Nat) (x : Nat),
    x ∈ dedupAux seen l ↔ x ∈ l ∧ x ∉ seen
  | _, [], x => by simp [dedupAux]
  | seen, y :: ys, x => by
    by_cases hy : y ∈ seen
    · rw [dedupAux, if_pos hy]
      rw [dedupAux_mem seen ys x]
      constructor
      · intro ⟨h1, h2⟩
        exact ⟨List.mem_cons_of_mem _ h1, h2⟩
      · intro ⟨h1, h2⟩
        rcases List.mem_cons.mp h1 with h | h
        · subst h
          exact absurd hy h2
        · exact ⟨h, h2⟩
    · rw [dedupAux, if_neg hy]
      rw [List.mem_cons, dedupAux_mem (y :: seen) ys x]
      constructor
      · intro h
        rcases h with h | ⟨h1, h2⟩
        · subst h
          exact ⟨List.mem_cons_self x ys, hy⟩
        · exact ⟨List.mem_cons_of_mem _ h1, fun hc => h2 (List.mem_cons_of_mem _ hc)⟩
      · intro ⟨h1, h2⟩
        rcases List.mem_cons.mp h1 with h | h
        · exact Or.inl h
        · by_cases hx : x = y
          · exact Or.inl hx
          · exact Or.inr ⟨h, by simp [hx, h2]⟩

/-- The deduplicated list never repeats an element of `seen` nor any
element twice. -/
lemma dedupAux_nodup : ∀ (seen l : List Nat), (dedupAux seen l).Nodup
  | _, [] => List.nodup_nil
  | seen, y :: ys => by
    by_cases hy : y ∈ seen
    · rw [dedupAux, if_pos hy]
      exact dedupAux_nodup seen ys
    · rw [dedupAux, if_neg hy]
      refine List.nodup_cons.mpr ⟨?_, dedupAux_nodup (y :: seen) ys⟩
      intro hc
      exact ((dedupAux_mem (y :: seen) ys y).mp hc).2 (List.mem_cons_self y seen)

/-- Deduplicating a list with no duplicates and no overlap with `seen`
is the identity. -/
lemma dedupAux_of_nodup : ∀ (seen l : List Nat), l.Nodup →
    (∀ x ∈ l, x ∉ seen) → dedupAux seen l = l
  | _, [], _, _ => rfl
  | seen, y :: ys, hnd, hdisj => by
    have hy : y ∉ seen := hdisj y (List.mem_cons_self y ys)
    rw [dedupAux, if_neg hy]
    congr 1
    apply dedupAux_of_nodup (y :: seen) ys (List.nodup_cons.mp hnd).2
    intro x hx
    rw [List.mem_cons]
    rintro (h | h)
    · subst h
      exact (List.nodup_cons.mp hnd).1 hx
    · exact hdisj x (List.mem_cons_of_mem _ hx) h

/-- Deduplication is idempotent. -/
lemma dedupFirst_idem (l : List Nat) : dedupFirst (dedupFirst l) = dedupFirst l := by
  apply dedupAux_of_nodup
  · exact dedupAux_nodup [] l
  · intro x _
    exact List.not_mem_nil x

/-- Post-Pampas loop characterization over a list of resolvable ids:
success exactly when every group settles, and any failure is reported as
`SettleFailed`. -/
lemma settleLoop_pampas (env : SettleEnv) (hp : env.pampas = true) (spId : Option Nat) :
    ∀ gids : List Nat, (∀ gid ∈ gids, (env.getGVG gid).isSome = true) →
      ((settleGVGLoop env spId gids = .ok () ↔
          ∀ gid ∈ gids, env.settleGVGOk gid = true) ∧
       (settleGVGLoop env spId gids = .ok () ∨
        settleGVGLoop env spId gids = .err .settleFailed))
  | [], _ => by simp [settleGVGLoop]
  | gid :: rest, hall => by
    obtain ⟨g, hg⟩ := Option.isSome_iff_exists.mp (hall gid (List.mem_cons_self gid rest))
    have ih := settleLoop_pampas env hp spId rest
      (fun x hx => hall x (List.mem_cons_of_mem _ hx))
    by_cases hs : env.settleGVGOk gid = true
    · have hred : settleGVGLoop env spId (gid :: rest) = settleGVGLoop env spId rest := by
        simp [settleGVGLoop, hg, hp, hs]
      rw [hred]
      constructor
      · rw [ih.1]
        constructor
        · intro h x hx
          rcases List.mem_cons.mp hx with h1 | h1
          · subst h1
            exact hs
          · exact h x h1
        · intro h x hx
          exact h x (List.mem_cons_of_mem _ hx)
      · exact ih.2
    · have hred : settleGVGLoop env spId (gid :: rest) = .err .settleFailed := by
        simp [settleGVGLoop, hg, hp, hs]
      rw [hred]
      constructor
      · constructor
        · intro h
          exact absurd h (by simp)
        · intro h
          exact absurd (h gid (List.mem_cons_self gid rest)) hs
      · exact Or.inr rfl

/-- Pre-Pampas loop characterization over resolvable ids: success
exactly when the caller is a secondary of every group and every group
settles; any failure is `SettleFailed`. -/
lemma settleLoop_prePampas (env : SettleEnv) (hp : env.pampas = false) (sid : Nat) :
    ∀ gids : List Nat, (∀ gid ∈ gids, (env.getGVG gid).isSome = true) →
      ((settleGVGLoop env (some sid) gids = .ok () ↔
          ∀ gid ∈ gids, ∃ gvg, env.getGVG gid = some gvg ∧
            sid ∈ gvg.secondarySpIds ∧ env.settleGVGOk gid = true) ∧
       (settleGVGLoop env (some sid) gids = .ok () ∨
        settleGVGLoop env (some sid) gids = .err .settleFailed))
  | [], _ => by simp [settleGVGLoop]
  | gid :: rest, hall => by
    obtain ⟨g, hg⟩ := Option.isSome_iff_exists.mp (hall gid (List.mem_cons_self gid rest))
    have ih := settleLoop_prePampas env hp sid rest
      (fun x hx => hall x (List.mem_cons_of_mem _ hx))
    by_cases hmem : sid ∈ g.secondarySpIds
    · by_cases hs : env.settleGVGOk gid = true
      · have hred : settleGVGLoop env (some sid) (gid :: rest) =
            settleGVGLoop env (some sid) rest := by
          simp [settleGVGLoop, hg, hp, hmem, hs]
        rw [hred]
        refine ⟨?_, ih.2⟩
        rw [ih.1]
        constructor
        · intro h x hx
          rcases List.mem_cons.mp hx with h1 | h1
          · subst h1
            exact ⟨g, hg, hmem, hs⟩
          · exact h x h1
        · intro h x hx
          exact h x (List.mem_cons_of_mem _ hx)
      · have hred : settleGVGLoop env (some sid) (gid :: rest) = .err .settleFailed := by
          simp [settleGVGLoop, hg, hp, hmem, hs]
        rw [hred]
        refine ⟨⟨fun h => absurd h (by simp), fun h => ?_⟩, Or.inr rfl⟩
        obtain ⟨g2, hg2, _, hs2⟩ := h gid (List.mem_cons_self gid rest)
        rw [hg] at hg2
        cases Option.some.inj hg2
        exact (hs hs2).elim
    · have hred : settleGVGLoop env (some sid) (gid :: rest) = .err .settleFailed := by
        simp [settleGVGLoop, hg, hp, hmem]
      rw [hred]
      refine ⟨⟨fun h => absurd h (by simp), fun h => ?_⟩, Or.inr rfl⟩
      obtain ⟨g2, hg2, hmem2, _⟩ := h gid (List.mem_cons_self gid rest)
      rw [hg] at hg2
      cases Option.some.inj hg2
      exact (hmem hmem2).elim

/-! ## Claim C9 -/

/-- Claim C9: group-set settlement (family id unspecified) deduplicates
the requested ids (the result equals settling the deduplicated list);
post-Pampas the result does not depend on the caller address at all (the
secondary-SP authorization is dropped); when every requested group
exists, the batch succeeds iff every group settles — pre-Pampas
additionally iff the resolved caller is a secondary SP of every named
group — and any failing group aborts the whole batch with the uniform
`SettleFailed` error (no partial success value). -/
theorem settle_group_set_semantics :
    ∀ (env : SettleEnv) (addr : Nat) (ids : List Nat),
      (Settle env addr NoSpecifiedFamilyId ids =
        Settle env addr NoSpecifiedFamilyId (dedupFirst ids)) ∧
      (env.pampas = true → ∀ addr2,
        Settle env addr NoSpecifiedFamilyId ids =
          Settle env addr2 NoSpecifiedFamilyId ids) ∧
      (env.pampas = true → (∀ gid ∈ ids, (env.getGVG gid).isSome = true) →
        ((Settle env addr NoSpecifiedFamilyId ids = .ok () ↔
            ∀ gid ∈ ids, env.settleGVGOk gid = true) ∧
         (Settle env addr NoSpecifiedFamilyId ids = .ok () ∨
          Settle env addr NoSpecifiedFamilyId ids = .err .settleFailed))) ∧
      (env.pampas = false → ∀ sp,
        resolveByOperatorOrFunding env.reg addr = some sp →
        (∀ gid ∈ ids, (env.getGVG gid).isSome = true) →
        ((Settle env addr NoSpecifiedFamilyId ids = .ok () ↔
            ∀ gid ∈ ids, ∃ gvg, env.getGVG gid = some gvg ∧
              sp.id ∈ gvg.secondarySpIds ∧ env.settleGVGOk gid = true) ∧
         (Settle env addr NoSpecifiedFamilyId ids = .ok () ∨
          Settle env addr NoSpecifiedFamilyId ids = .err .settleFailed))) := by
  intro env addr ids
  have hmemiff : ∀ x, x ∈ dedupFirst ids ↔ x ∈ ids := by
    intro x
    rw [dedupFirst, dedupAux_mem]
    simp
  refine ⟨?_, ?_, ?_, ?_⟩
  · dsimp only [Settle]
    rw [dedupFirst_idem]
  · intro hp addr2
    simp [Settle, hp]
  · intro hp hall
    have hall2 : ∀ gid ∈ dedupFirst ids, (env.getGVG gid).isSome = true :=
      fun x hx => hall x ((hmemiff x).mp hx)
    have hred : Settle env addr NoSpecifiedFamilyId ids =
        settleGVGLoop env none (dedupFirst ids) := by
      simp [Settle, hp]
    have hloop := settleLoop_pampas env hp none (dedupFirst ids) hall2
    constructor
    · rw [hred, hloop.1]
      constructor
      · intro h x hx
        exact h x ((hmemiff x).mpr hx)
      · intro h x hx
        exact h x ((hmemiff x).mp hx)
    · rw [hred]
      exact hloop.2
  · intro hp sp hsp hall
    have hall2 : ∀ gid ∈ dedupFirst ids, (env.getGVG gid).isSome = true :=
      fun x hx => hall x ((hmemiff x).mp hx)
    have hred : Settle env addr NoSpecifiedFamilyId ids =
        settleGVGLoop env (some sp.id) (dedupFirst ids) := by
      simp [Settle, hp, hsp]
    have hloop := settleLoop_prePampas env hp sp.id (dedupFirst ids) hall2
    constructor
    · rw [hred, hloop.1]
      constructor
      · intro h x hx
        exact h x ((hmemiff x).mpr hx)
      · intro h x hx
        exact h x ((hmemiff x).mp hx)
    · rw [hred]
      exact hloop.2

def gvgC9a : GlobalVirtualGroup := ⟨1, 5, 1, [2, 3], 0, 0⟩

def gvgC9b : GlobalVirtualGroup := ⟨2, 5, 1, [3, 4], 0, 0⟩

def envC9 : SettleEnv :=
  { pampas := true,
    reg := { byOperator := fun _ => none,
             byFunding := fun _ => none,
             byId := fun _ => none,
             allSPs := [] },
    getFamily := fun _ => none,
    getGVG := fun g => if g = 1 then some gvgC9a else if g = 2 then some gvgC9b else none,
    settleFamilyOk := true,
    settleGVGOk := fun _ => true }

def envC9f : SettleEnv := { envC9 with settleGVGOk := fun g => g ≠ 2 }

/-- Claim C9 witness: post-Pampas the caller address is irrelevant, the
duplicated request settles like its deduplication and succeeds when all
groups settle, and a single failing group aborts the batch with
`SettleFailed`. -/
theorem settle_group_set_witness :
    Settle envC9 30 NoSpecifiedFamilyId [1, 1, 2] =
      Settle envC9 99 NoSpecifiedFamilyId [1, 1, 2] ∧
    Settle envC9 30 NoSpecifiedFamilyId [1, 1, 2] =
      Settle envC9 30 NoSpecifiedFamilyId (dedupFirst [1, 1, 2]) ∧
    Settle envC9 30 NoSpecifiedFamilyId [1, 1, 2] = .ok () ∧
    Settle envC9f 30 NoSpecifiedFamilyId [1, 1, 2] = .err .settleFailed := by
  refine ⟨?_, ?_, ?_, ?_⟩
  · exact (settle_group_set_semantics envC9 30 [1, 1, 2]).2.1 (by decide) 99
  · exact (settle_group_set_semantics envC9 30 [1, 1, 2]).1
  · exact ((settle_group_set_semantics envC9 30 [1, 1, 2]).2.2.1 (by decide)
      (by decide)).1.mpr (by decide)
  · have hc := (settle_group_set_semantics envC9f 30 [1, 1, 2]).2.2.1 (by decide) (by decide)
    rcases hc.2 with hok | herr
    · exact absurd (hc.1.mp hok 2 (by decide)) (by decide)
    · exact herr

/-! ## UpdateParams (lines 31-53) -/

/-- Modelled from the spec: the module parameter object (`types.Params`)
is defined outside `src/`; besides `DepositDenom` the handler treats the
remaining parameters opaquely, abstracted here as one field. -/
structure VgParams where
  depositDenom : String
  otherParams : Nat
deriving DecidableEq, Repr

structure UpdateParamsEnv where
  authority : String
  stored : VgParams
  setParamsOk : VgParams → Bool
  nagqu : Bool

/-- `UpdateParams` handler (lines 31-53): wrong authority is rejected;
a request whose `DepositDenom` differs from the stored one is rejected
with the invalid-parameter error before anything is written;
`setParamsOk` stands for the `SetParams` validation, which writes
nothing on failure. The result carries the stored parameters after the
call together with the emitted events (Nagqu-gated). -/
def UpdateParams (env : UpdateParamsEnv) (msgAuthority : String)
    (msgParams : VgParams) : Outcome (VgParams × List VgEvent) :=
  if env.authority ≠ msgAuthority then .err .invalidSigner
  else if msgParams.depositDenom ≠ env.stored.depositDenom then .err .invalidParameter
  else if !env.setParamsOk msgParams then .err .setParamsFailed
  else
    .ok (msgParams,
      if env.nagqu then [VgEvent.paramsUpdated msgParams.depositDenom] else [])

/-- The parameters stored after an `UpdateParams` call: the request's
parameters on success, the untouched previous ones on any error. -/
def updateParamsFinalStored (env : UpdateParamsEnv) (msgAuthority : String)
    (msgParams : VgParams) : VgParams :=
  match UpdateParams env msgAuthority msgParams with
  | .ok r => r.1
  | _ => env.stored

/-- A successful `UpdateParams` stores the requested parameters and
implies the denom matched and the authority was correct. -/
lemma updateParams_ok_inv (env : UpdateParamsEnv) (msgAuthority : String)
    (msgParams : VgParams) (r : VgParams × List VgEvent)
    (h : UpdateParams env msgAuthority msgParams = .ok r) :
    r.1 = msgParams ∧ msgParams.depositDenom = env.stored.depositDenom ∧
      env.authority = msgAuthority := by
  dsimp only [UpdateParams] at h
  repeat' split at h
  all_goals first
    | (subst h
       simp_all)
    | (have h2 := Outcome.ok.inj h
       subst h2
       simp_all)
    | simp_all

/-! ## Claim C10 -/

/-- Claim C10: `UpdateParams` can never change the stored
`DepositDenom`; every request carrying a different `DepositDenom` fails
and leaves all stored parameters unchanged, with the invalid-parameter
error when the authority is the configured one; and a successful update
requires both the matching `DepositDenom` and the correct authority. -/
theorem update_params_deposit_denom_frozen :
    ∀ (env : UpdateParamsEnv) (msgAuthority : String) (msgParams : VgParams),
      ((updateParamsFinalStored env msgAuthority msgParams).depositDenom =
        env.stored.depositDenom) ∧
      (msgParams.depositDenom ≠ env.stored.depositDenom →
        (∃ e, UpdateParams env msgAuthority msgParams = .err e) ∧
        updateParamsFinalStored env msgAuthority msgParams = env.stored) ∧
      (env.authority = msgAuthority →
        msgParams.depositDenom ≠ env.stored.depositDenom →
        UpdateParams env msgAuthority msgParams = .err .invalidParameter) ∧
      (∀ r, UpdateParams env msgAuthority msgParams = .ok r →
        msgParams.depositDenom = env.stored.depositDenom ∧
        env.authority = msgAuthority) := by
  intro env msgAuthority msgParams
  refine ⟨?_, ?_, ?_, ?_⟩
  · dsimp only [updateParamsFinalStored]
    cases h : UpdateParams env msgAuthority msgParams with
    | ok r =>
      obtain ⟨h1, h2, _⟩ := updateParams_ok_inv env msgAuthority msgParams r h
      show r.1.depositDenom = env.stored.depositDenom
      rw [h1, h2]
    | err e => rfl
    | fatal => rfl
  · intro hne
    dsimp only [updateParamsFinalStored, UpdateParams]
    by_cases hauth : env.authority = msgAuthority
    · simp [hauth, hne]
    · simp [hauth]
  · intro hauth hne
    dsimp only [UpdateParams]
    simp [hauth, hne]
  · intro r h
    obtain ⟨_, h2, h3⟩ := updateParams_ok_inv env msgAuthority msgParams r h
    exact ⟨h2, h3⟩

def envC10 : UpdateParamsEnv :=
  { authority := "gov",
    stored := ⟨"BNB", 3⟩,
    setParamsOk := fun _ => true,
    nagqu := true }

/-- Claim C10 witness: changing `DepositDenom` is rejected with the
invalid-parameter error and the stored parameters survive unchanged,
while the matching-denom update goes through. -/
theorem update_params_witness :
    UpdateParams envC10 "gov" ⟨"ETH", 4⟩ = .err .invalidParameter ∧
    updateParamsFinalStored envC10 "gov" ⟨"ETH", 4⟩ = envC10.stored ∧
    (updateParamsFinalStored envC10 "gov" ⟨"BNB", 4⟩).depositDenom =
      envC10.stored.depositDenom := by
  refine ⟨?_, ?_, ?_⟩
  · exact (update_params_deposit_denom_frozen envC10 "gov" ⟨"ETH", 4⟩).2.2.1
      (by decide) (by decide)
  · exact ((update_params_deposit_denom_frozen envC10 "gov" ⟨"ETH", 4⟩).2.1
      (by decide)).2
  · exact (update_params_deposit_denom_frozen envC10 "gov" ⟨"BNB", 4⟩).1

end VG
